import Mathlib

/-!
Shallow embedding of `ports/servoshell/desktop/headless_window.rs` (servo's
headless window implementation) and proofs about it.

Modelling conventions:
- `DeviceIntSize`, `Point2D`, `Box2D` mirror the euclid types used by the
  source (typed units erased; all components are `ℤ`, matching `i32`).
- `f32` scale arithmetic is modelled exactly over `ℚ`; the `f32 → i32`
  conversion performed by euclid's `to_i32` (a Rust `as` cast) truncates
  toward zero, modelled by `truncToInt`.
- External effects are modelled as explicit boolean oracles passed to the
  operations: `resize_ok` (whether `RenderingContext::resize` returns `Ok`),
  `lock_ok` (whether `RwLock::write` on the event queue succeeds, i.e. the
  lock is not poisoned), and `query_ok` (whether `context_surface_info`
  returns usable info; `Err(_)` and `Ok(None)` are collapsed, as the source
  does with `.unwrap_or(None)`).
- The rendering context's current surface size is tracked in the
  `surface_size` field: a successful `resize` sets it, a failed one leaves
  it unchanged, and `context_surface_info` reports it.
-/

namespace HeadlessWindow

/-- Model of euclid `Size2D<i32, DevicePixel>` (servo's `DeviceIntSize`). -/
structure DeviceIntSize where
  width : ℤ
  height : ℤ
deriving DecidableEq

/-- Model of euclid `Point2D<i32, _>`. -/
structure Point2D where
  x : ℤ
  y : ℤ
deriving DecidableEq

/-- Model of euclid `Box2D<i32, _>`: a box given by its `min` and `max`
corners. -/
structure Box2D where
  min : Point2D
  max : Point2D
deriving DecidableEq

/-- Model of euclid `Box2D::from_origin_and_size`. -/
def Box2D.from_origin_and_size (origin : Point2D) (s : DeviceIntSize) : Box2D :=
  ⟨origin, ⟨origin.x + s.width, origin.y + s.height⟩⟩

/-- Model of euclid `Box2D::size` (componentwise `max - min`). -/
def Box2D.size (b : Box2D) : DeviceIntSize :=
  ⟨b.max.x - b.min.x, b.max.y - b.min.y⟩

/-- Model of `EmbedderEvent` — only the variant this file produces. -/
inductive EmbedderEvent where
  | WindowResize
deriving DecidableEq

/-- Model of `AnimationState`. -/
inductive AnimationState where
  | Idle
  | Animating
deriving DecidableEq

/-- Truncation toward zero of a rational: the behaviour of euclid's
`to_i32` on an `f32` value (a Rust `as` cast). -/
def truncToInt (q : ℚ) : ℤ :=
  if 0 ≤ q then ⌊q⌋ else ⌈q⌉

/-- The state of `struct Window` from `headless_window.rs`, together with
`surface_size`, the current size of the surface held by the
`rendering_context`. -/
structure Window where
  surface_size : DeviceIntSize
  animation_state : AnimationState
  fullscreen : Bool
  device_pixel_ratio_override : Option ℚ
  inner_size : DeviceIntSize
  screen_size : DeviceIntSize
  window_rect : Box2D
  event_queue : List EmbedderEvent
deriving DecidableEq

/-- Model of `Window::new`.  The requested logical size is a
`Size2D<u32, _>` (`width`, `height : ℕ`); `screen_size_override` models
`opts::get().screen_size_override` (an optional `Size2D<u32>`, converted
with `to_i32`).  The initial surface is created with the logical size (no
ratio applied), while `inner_size` is the logical size scaled by the
effective hidpi factor and converted with `to_i32` (truncation). -/
def Window.new (width height : ℕ) (device_pixel_ratio_override : Option ℚ)
    (screen_size_override : Option (ℕ × ℕ)) : Window :=
  let hidpi_factor : ℚ := device_pixel_ratio_override.getD 1
  let size : DeviceIntSize := ⟨(width : ℤ), (height : ℤ)⟩
  let inner_size : DeviceIntSize :=
    ⟨truncToInt ((width : ℚ) * hidpi_factor), truncToInt ((height : ℚ) * hidpi_factor)⟩
  let window_rect := Box2D.from_origin_and_size ⟨0, 0⟩ size
  let screen_size : DeviceIntSize :=
    match screen_size_override with
    | some (a, b) => ⟨(a : ℤ), (b : ℤ)⟩
    | none => window_rect.size
  { surface_size := size
    animation_state := .Idle
    fullscreen := false
    device_pixel_ratio_override := device_pixel_ratio_override
    inner_size := inner_size
    screen_size := screen_size
    window_rect := window_rect
    event_queue := [] }

/-- Model of `Window::get_events` (the spec's `drainEvents`): `lock_ok`
says whether `event_queue.write()` succeeded.  Returns the drained events
and the new state. -/
def Window.get_events (w : Window) (lock_ok : Bool) : List EmbedderEvent × Window :=
  if lock_ok then (w.event_queue, { w with event_queue := [] }) else ([], w)

/-- Model of `Window::request_inner_size`: `resize_ok` says whether
`rendering_context.resize` returned `Ok(())`, `lock_ok` whether the
event-queue write lock was acquired.  Returns the `Option<DeviceIntSize>`
result and the new state. -/
def Window.request_inner_size (w : Window) (size : DeviceIntSize)
    (resize_ok lock_ok : Bool) : Option DeviceIntSize × Window :=
  let new_size : DeviceIntSize := ⟨max size.width 1, max size.height 1⟩
  if w.inner_size = new_size then
    (some new_size, w)
  else if resize_ok then
    let w1 := { w with surface_size := new_size, inner_size := new_size }
    let w2 :=
      if lock_ok then { w1 with event_queue := w1.event_queue ++ [EmbedderEvent.WindowResize] }
      else w1
    (some new_size, w2)
  else
    (none, w)

/-- Model of `Window::device_hidpi_factor`: always the identity scale. -/
def Window.device_hidpi_factor (_ : Window) : ℚ := 1

/-- Modelled from the spec: the trait-default method `hidpi_factor()` of
`WindowPortsMethods` (defined in `window_trait.rs`, which is not part of
this fragment), as the spec describes its effect here — the hidpi factor
used by `get_coordinates` and `page_height` "is 1.0" / "always 1.0
here". -/
def Window.hidpi_factor (_ : Window) : ℚ := 1

/-- Model of `RenderingContext::context_surface_info`, collapsed as the
source does with `.unwrap_or(None)`: reports the live surface size when the
query succeeds. -/
def Window.context_surface_info (w : Window) (query_ok : Bool) : Option DeviceIntSize :=
  if query_ok then some w.surface_size else none

/-- Model of `Window::page_height`: live surface height (0 when
unavailable) times the hidpi factor. -/
def Window.page_height (w : Window) (query_ok : Bool) : ℚ :=
  let height : ℤ := ((w.context_surface_info query_ok).map DeviceIntSize.height).getD 0
  (height : ℚ) * w.hidpi_factor

/-- Model of `Window::set_fullscreen`. -/
def Window.set_fullscreen (w : Window) (state : Bool) : Window :=
  { w with fullscreen := state }

/-- Model of `Window::get_fullscreen`. -/
def Window.get_fullscreen (w : Window) : Bool :=
  w.fullscreen

/-- Model of `Window::is_animating`. -/
def Window.is_animating (w : Window) : Bool :=
  w.animation_state = AnimationState.Animating

/-- Model of `Window::set_animation_state`. -/
def Window.set_animation_state (w : Window) (state : AnimationState) : Window :=
  { w with animation_state := state }

/-- Model of `EmbedderCoordinates`. -/
structure EmbedderCoordinates where
  viewport : Box2D
  framebuffer : DeviceIntSize
  window_rect : Box2D
  screen_size : DeviceIntSize
  available_screen_size : DeviceIntSize
  hidpi_factor : ℚ
deriving DecidableEq

/-- Model of `Window::get_coordinates`. -/
def Window.get_coordinates (w : Window) : EmbedderCoordinates :=
  { viewport := Box2D.from_origin_and_size ⟨0, 0⟩ w.inner_size
    framebuffer := w.inner_size
    window_rect := w.window_rect
    screen_size := w.screen_size
    available_screen_size := w.screen_size
    hidpi_factor := w.hidpi_factor }

/-- The spec's `effectiveRatio`: the override if supplied, else 1.0. -/
def effScale (r : Option ℚ) : ℚ :=
  r.getD 1

/-- The inner size that claim C1 predicates: each component of the
requested logical size times the effective ratio, rounded to the nearest
integer. -/
def claimedInnerSizeRound (width height : ℕ) (r : Option ℚ) : DeviceIntSize :=
  ⟨round ((width : ℚ) * effScale r), round ((height : ℚ) * effScale r)⟩

/-- The amended inner size: each component of the requested logical size
times the effective ratio, truncated toward zero (the behaviour of the
`f32 → i32` cast the source performs). -/
def specInnerSizeTrunc (width height : ℕ) (r : Option ℚ) : DeviceIntSize :=
  ⟨truncToInt ((width : ℚ) * effScale r), truncToInt ((height : ℚ) * effScale r)⟩

/-- A concrete window state used to witness the theorems below: the state
reached by a construction with logical size (800,600), no ratio override
and no screen-size override. -/
def w0 : Window :=
  { surface_size := ⟨800, 600⟩
    animation_state := .Idle
    fullscreen := false
    device_pixel_ratio_override := none
    inner_size := ⟨800, 600⟩
    screen_size := ⟨800, 600⟩
    window_rect := ⟨⟨0, 0⟩, ⟨800, 600⟩⟩
    event_queue := [] }

/-- Helper: a box built from the origin recovers its size. -/
theorem size_from_origin_zero (s : DeviceIntSize) :
    (Box2D.from_origin_and_size ⟨0, 0⟩ s).size = s := by
  simp [Box2D.from_origin_and_size, Box2D.size]

/-- C1 counterexample: constructing with logical size (1,1) and ratio
override 3/2 yields `inner_size = (1,1)` (truncation of 1.5), while the
claimed `round(S * effectiveRatio(R))` is (2,2) — so `inner_size` does
not equal the rounded product. -/
theorem new_inner_size_round_counterexample :
    (Window.new 1 1 (some (3 / 2)) none).inner_size ≠
      claimedInnerSizeRound 1 1 (some (3 / 2)) := by
  have ht : truncToInt (((1 : ℕ) : ℚ) * (3 / 2)) = 1 := by
    rw [truncToInt, if_pos (by norm_num)]
    rw [show (((1 : ℕ) : ℚ) * (3 / 2)) = 3 / 2 by norm_num]
    rw [Int.floor_eq_iff]
    norm_num
  have hr : round (((1 : ℕ) : ℚ) * (3 / 2)) = 2 := by
    rw [show (((1 : ℕ) : ℚ) * (3 / 2)) = 3 / 2 by norm_num]
    rw [round_eq, Int.floor_eq_iff]
    norm_num
  have h1 : (Window.new 1 1 (some (3 / 2)) none).inner_size = ⟨1, 1⟩ := by
    simp only [Window.new, Option.getD_some, ht]
  have h2 : claimedInnerSizeRound 1 1 (some (3 / 2)) = ⟨2, 2⟩ := by
    simp only [claimedInnerSizeRound, effScale, Option.getD_some, hr]
  rw [h1, h2]
  decide

/-- C1 (amended): for every valid construction with positive requested
logical size and optional ratio override, `inner_size` equals the requested
size times the effective ratio (1.0 when no override) truncated toward
zero — not rounded to nearest. -/
theorem new_inner_size_eq_trunc (width height : ℕ) (r : Option ℚ)
    (sso : Option (ℕ × ℕ)) (_hw : 0 < width) (_hh : 0 < height) :
    (Window.new width height r sso).inner_size = specInnerSizeTrunc width height r := by
  cases r <;> rfl

/-- C1 witness: the amended theorem at the spec's own example — logical
size (400,300) with override 2.0 yields inner size (800,600). -/
theorem new_inner_size_eq_trunc_witness :
    (Window.new 400 300 (some 2) none).inner_size = specInnerSizeTrunc 400 300 (some 2) ∧
    specInnerSizeTrunc 400 300 (some 2) = ⟨800, 600⟩ :=
  ⟨new_inner_size_eq_trunc 400 300 (some 2) none (by decide) (by decide), by
    have h4 : truncToInt (((400 : ℕ) : ℚ) * 2) = 800 := by
      rw [truncToInt, if_pos (by norm_num)]
      rw [show (((400 : ℕ) : ℚ) * 2) = 800 by norm_num]
      rw [Int.floor_eq_iff]
      norm_num
    have h3 : truncToInt (((300 : ℕ) : ℚ) * 2) = 600 := by
      rw [truncToInt, if_pos (by norm_num)]
      rw [show (((300 : ℕ) : ℚ) * 2) = 600 by norm_num]
      rw [Int.floor_eq_iff]
      norm_num
    simp only [specInnerSizeTrunc, effScale, Option.getD_some, h4, h3]⟩

/-- C2: `request_inner_size` clamps each requested dimension to a minimum
of 1 before any further processing: the clamped size has both dimensions at
least 1, any returned size is exactly the clamped size, and the stored
`inner_size` after the call is either unchanged or the clamped size — so
neither a returned size nor a newly stored `inner_size` ever has a
dimension below 1. -/
theorem request_inner_size_min_one (w : Window) (size : DeviceIntSize) (ro lo : Bool) :
    1 ≤ max size.width 1 ∧ 1 ≤ max size.height 1 ∧
    ((w.request_inner_size size ro lo).1 = none ∨
      (w.request_inner_size size ro lo).1 =
        some ⟨max size.width 1, max size.height 1⟩) ∧
    ((w.request_inner_size size ro lo).2.inner_size = w.inner_size ∨
      (w.request_inner_size size ro lo).2.inner_size =
        ⟨max size.width 1, max size.height 1⟩) := by
  refine ⟨le_max_right _ _, le_max_right _ _, ?_, ?_⟩
  · by_cases h : w.inner_size = (⟨max size.width 1, max size.height 1⟩ : DeviceIntSize)
    · right
      simp [Window.request_inner_size, h]
    · cases ro
      · left
        simp [Window.request_inner_size, h]
      · right
        cases lo <;> simp [Window.request_inner_size, h]
  · by_cases h : w.inner_size = (⟨max size.width 1, max size.height 1⟩ : DeviceIntSize)
    · left
      simp [Window.request_inner_size, h]
    · cases ro
      · left
        simp [Window.request_inner_size, h]
      · right
        cases lo <;> simp [Window.request_inner_size, h]

/-- C3: a `request_inner_size` call whose clamped size equals the current
`inner_size` returns that size with no state change at all, whatever the
oracles; and after any call that returned a size, repeating the call with
the same requested size is a no-op returning the same size with the state
unchanged. -/
theorem request_inner_size_idempotent (w : Window) (size : DeviceIntSize)
    (ro lo ro' lo' : Bool) (s : DeviceIntSize)
    (hs : (w.request_inner_size size ro lo).1 = some s) :
    (w.request_inner_size size ro lo).2.request_inner_size size ro' lo' =
      (some s, (w.request_inner_size size ro lo).2) ∧
    (w.inner_size = ⟨max size.width 1, max size.height 1⟩ →
      w.request_inner_size size ro lo = (some w.inner_size, w)) := by
  by_cases h : w.inner_size = (⟨max size.width 1, max size.height 1⟩ : DeviceIntSize)
  · have h1 : w.request_inner_size size ro lo = (some w.inner_size, w) := by
      simp [Window.request_inner_size, h]
    have hs' : s = w.inner_size := by
      rw [h1] at hs
      exact (Option.some_inj.mp hs).symm
    subst hs'
    refine ⟨?_, fun _ => h1⟩
    rw [h1]
    simp [Window.request_inner_size, h]
  · cases ro
    · exfalso
      simp [Window.request_inner_size, h] at hs
    · have h3 : (w.request_inner_size size true lo).1 =
          some (⟨max size.width 1, max size.height 1⟩ : DeviceIntSize) := by
        cases lo <;> simp [Window.request_inner_size, h]
      have h2 : (w.request_inner_size size true lo).2.inner_size =
          (⟨max size.width 1, max size.height 1⟩ : DeviceIntSize) := by
        cases lo <;> simp [Window.request_inner_size, h]
      have hs' : s = (⟨max size.width 1, max size.height 1⟩ : DeviceIntSize) := by
        rw [h3] at hs
        exact (Option.some_inj.mp hs).symm
      subst hs'
      refine ⟨?_, fun hc => absurd hc h⟩
      generalize hW : (w.request_inner_size size true lo).2 = W at h2 ⊢
      simp [Window.request_inner_size, h2]

/-- C3 witness: on the concrete state `w0`, requesting the current size
(800,600) is answered immediately, and repeating it changes nothing. -/
theorem request_inner_size_idempotent_witness :
    (w0.request_inner_size ⟨800, 600⟩ true true).2.request_inner_size ⟨800, 600⟩ true true =
      (some ⟨800, 600⟩, (w0.request_inner_size ⟨800, 600⟩ true true).2) ∧
    (w0.inner_size = ⟨max (800 : ℤ) 1, max (600 : ℤ) 1⟩ →
      w0.request_inner_size ⟨800, 600⟩ true true = (some w0.inner_size, w0)) :=
  request_inner_size_idempotent w0 ⟨800, 600⟩ true true true true ⟨800, 600⟩ (by decide)

/-- C4 counterexample: on `w0`, a call with a differing clamped size whose
surface resize succeeds but whose event-queue lock acquisition fails
returns the new size while appending no resize event — so a successful
resize does not always enqueue exactly one resize event. -/
theorem success_event_lost_counterexample :
    (w0.request_inner_size ⟨400, 300⟩ true false).1 = some ⟨400, 300⟩ ∧
    w0.inner_size ≠ ⟨400, 300⟩ ∧
    (w0.request_inner_size ⟨400, 300⟩ true false).2.inner_size = ⟨400, 300⟩ ∧
    (w0.request_inner_size ⟨400, 300⟩ true false).2.event_queue = [] := by
  decide

/-- C4 (amended): when the clamped size differs from the current
`inner_size`, the surface resize succeeds and the event-queue lock is
acquired, `request_inner_size` updates `inner_size` to the clamped size,
appends exactly one window-resize event, and returns the new size; a
failed resize never changes the event queue. -/
theorem request_inner_size_success_event (w : Window) (size : DeviceIntSize) (lo : Bool)
    (h : w.inner_size ≠ ⟨max size.width 1, max size.height 1⟩) :
    w.request_inner_size size true true =
      (some ⟨max size.width 1, max size.height 1⟩,
        { w with
            surface_size := ⟨max size.width 1, max size.height 1⟩
            inner_size := ⟨max size.width 1, max size.height 1⟩
            event_queue := w.event_queue ++ [EmbedderEvent.WindowResize] }) ∧
    (w.request_inner_size size false lo).2.event_queue = w.event_queue := by
  constructor
  · simp [Window.request_inner_size, h]
  · simp [Window.request_inner_size, h]

/-- C4 witness: the amended theorem on the concrete state `w0` with
requested size (400,300). -/
theorem request_inner_size_success_event_witness :
    w0.request_inner_size ⟨400, 300⟩ true true =
      (some ⟨400, 300⟩,
        { w0 with
            surface_size := ⟨400, 300⟩
            inner_size := ⟨400, 300⟩
            event_queue := w0.event_queue ++ [EmbedderEvent.WindowResize] }) ∧
    (w0.request_inner_size ⟨400, 300⟩ false true).2.event_queue = w0.event_queue :=
  request_inner_size_success_event w0 ⟨400, 300⟩ true (by decide)

/-- C5: when the surface resize fails (and the clamped size differs from
the current `inner_size`, so the resize is actually attempted), the call
returns `none` and the whole window state — `inner_size`, event queue and
every other field — is exactly unchanged. -/
theorem request_inner_size_failure_unchanged (w : Window) (size : DeviceIntSize) (lo : Bool)
    (h : w.inner_size ≠ ⟨max size.width 1, max size.height 1⟩) :
    w.request_inner_size size false lo = (none, w) := by
  simp [Window.request_inner_size, h]

/-- C5 witness: a failing resize on the concrete state `w0` returns `none`
and leaves the state untouched. -/
theorem request_inner_size_failure_unchanged_witness :
    w0.request_inner_size ⟨1, 1⟩ false false = (none, w0) :=
  request_inner_size_failure_unchanged w0 ⟨1, 1⟩ false (by decide)

/-- C6: draining events returns exactly the queued events in insertion
order and empties the queue, touching nothing else; a second drain with no
intervening enqueue returns the empty sequence and changes nothing. -/
theorem get_events_drains (w : Window) :
    w.get_events true = (w.event_queue, { w with event_queue := [] }) ∧
    (w.get_events true).2.get_events true = ([], (w.get_events true).2) :=
  ⟨rfl, rfl⟩

/-- C7: when acquiring the event-queue lock fails, draining events returns
the empty sequence and leaves the state unchanged, propagating no error. -/
theorem get_events_lock_failure (w : Window) :
    w.get_events false = ([], w) :=
  rfl

/-- C8: `get_coordinates` is the snapshot with viewport the box from the
origin with the current `inner_size`, framebuffer equal to `inner_size`,
window rectangle and (available) screen size the construction-time values,
and hidpi factor 1; the viewport size equals `inner_size` at all times,
including after any `request_inner_size` call, which never changes
`window_rect` or `screen_size`. -/
theorem get_coordinates_snapshot (w : Window) (size : DeviceIntSize) (ro lo : Bool) :
    w.get_coordinates =
      { viewport := Box2D.from_origin_and_size ⟨0, 0⟩ w.inner_size
        framebuffer := w.inner_size
        window_rect := w.window_rect
        screen_size := w.screen_size
        available_screen_size := w.screen_size
        hidpi_factor := 1 } ∧
    w.get_coordinates.viewport.size = w.inner_size ∧
    ((w.request_inner_size size ro lo).2.get_coordinates.viewport.size =
      (w.request_inner_size size ro lo).2.inner_size) ∧
    (w.request_inner_size size ro lo).2.window_rect = w.window_rect ∧
    (w.request_inner_size size ro lo).2.screen_size = w.screen_size := by
  refine ⟨rfl, size_from_origin_zero _, size_from_origin_zero _, ?_, ?_⟩
  · by_cases h : w.inner_size = (⟨max size.width 1, max size.height 1⟩ : DeviceIntSize)
    · simp [Window.request_inner_size, h]
    · cases ro <;> cases lo <;> simp [Window.request_inner_size, h]
  · by_cases h : w.inner_size = (⟨max size.width 1, max size.height 1⟩ : DeviceIntSize)
    · simp [Window.request_inner_size, h]
    · cases ro <;> cases lo <;> simp [Window.request_inner_size, h]

/-- C9: `page_height` reports the live surface height (times the hidpi
factor, which is 1) when the surface-info query succeeds and 0 when it
does not; it does not read the cached `inner_size` — changing `inner_size`
alone never changes the result. -/
theorem page_height_live_surface (w : Window) (q : Bool) (s : DeviceIntSize) :
    w.hidpi_factor = 1 ∧
    w.page_height q =
      (if q then ((w.surface_size.height : ℤ) : ℚ) * w.hidpi_factor else 0) ∧
    ({ w with inner_size := s }).page_height q = w.page_height q := by
  refine ⟨rfl, ?_, ?_⟩
  · cases q <;>
      simp [Window.page_height, Window.context_surface_info, Window.hidpi_factor]
  · cases q <;>
      simp [Window.page_height, Window.context_surface_info, Window.hidpi_factor]

/-- C10: when the surface resize succeeds but the event-queue lock is
poisoned, `request_inner_size` still updates `inner_size` (and the surface)
to the clamped size and returns it, while the event queue — and every other
field — stays exactly as it was: the resize event is silently lost. -/
theorem request_inner_size_lock_poisoned (w : Window) (size : DeviceIntSize)
    (h : w.inner_size ≠ ⟨max size.width 1, max size.height 1⟩) :
    w.request_inner_size size true false =
      (some ⟨max size.width 1, max size.height 1⟩,
        { w with
            surface_size := ⟨max size.width 1, max size.height 1⟩
            inner_size := ⟨max size.width 1, max size.height 1⟩ }) := by
  simp [Window.request_inner_size, h]

/-- C10 witness: on the concrete state `w0`, a successful resize to (2,2)
under a poisoned lock updates the size, returns it, and appends no
event. -/
theorem request_inner_size_lock_poisoned_witness :
    w0.request_inner_size ⟨2, 2⟩ true false =
      (some ⟨2, 2⟩, { w0 with surface_size := ⟨2, 2⟩, inner_size := ⟨2, 2⟩ }) :=
  request_inner_size_lock_poisoned w0 ⟨2, 2⟩ (by decide)

end HeadlessWindow
